import Mathlib

/-!
Verification development for the ThermoSim-EPL thermodynamic cycle simulator.

Shallow embedding of the core physics/numerics engine:
  * `src/transformations.py` : the pure state-equation helpers
    (`isotherme`, `adiabatique`, `van_der_waals`),
  * `src/gas_models.py`     : the gas-model hierarchy (`ModeleGaz`,
    `GazParfait`, `GazVanDerWaals`) as an inductive of the two variants
    with the class methods as functions on it,
  * `src/cycles.py`         : the Otto/Diesel cycle engines (corner-point
    computation, adiabatic path sampling, Simpson work integration,
    heat/efficiency formulas).

Python floats are modelled as real numbers; `float(nan)` result fields
are modelled as `Option ℝ` with `none` for NaN.  `numpy` broadcasting over
arrays is modelled as `List.map`; `scipy.integrate.simpson` on a uniform
grid is modelled by the composite Simpson rule with the scipy correction for
an odd number of intervals.
-/

noncomputable section

/-- `CONST_R = 8.314` from `src/transformations.py`. -/
def CONST_R : ℝ := 8.314

/-- `isotherme(V, n, T) = n*CONST_R*T / V` (ideal-gas pressure),
from `src/transformations.py`. -/
def isotherme (V n T : ℝ) : ℝ := (n * CONST_R * T) / V

/-- `adiabatique(V, P0, V0, gamma) = P0 * (V0/V)**gamma`
(ideal-gas adiabatic pressure), from `src/transformations.py`. -/
def adiabatique (V P0 V0 gamma : ℝ) : ℝ := P0 * (V0 / V) ^ gamma

/-- `van_der_waals(V, n, T, a, b) = n*CONST_R*T/(V - n*b) - a*n^2/V^2`
(Van der Waals pressure), from `src/transformations.py`. -/
def van_der_waals (V n T a b : ℝ) : ℝ :=
  (n * CONST_R * T) / (V - n * b) - (a * n ^ 2) / V ^ 2

/-- The two gas-model classes of `src/gas_models.py`: `GazParfait n gamma`
and `GazVanDerWaals n gamma a b`.  The base class `ModeleGaz` carries
`n`, `gamma` and `R = 8.314`; the subclasses add their own constants. -/
inductive Gaz where
  | parfait (n gamma : ℝ)
  | vanDerWaals (n gamma a b : ℝ)

namespace Gaz

/-- Field `self.n` (moles). -/
def n : Gaz → ℝ
  | parfait n _ => n
  | vanDerWaals n _ _ _ => n

/-- Field `self.gamma` (heat-capacity ratio). -/
def gamma : Gaz → ℝ
  | parfait _ g => g
  | vanDerWaals _ g _ _ => g

/-- Field `self.R = 8.314`, set in `ModeleGaz.__init__`. -/
def R (_ : Gaz) : ℝ := 8.314

/-- `getattr(self, b, 0)` as used by `variation_entropie`:
the covolume `b` for `GazVanDerWaals`, `0` for `GazParfait`. -/
def covolume : Gaz → ℝ
  | parfait _ _ => 0
  | vanDerWaals _ _ _ b => b

/-- `pression(V, T)`: `GazParfait` delegates to `isotherme`,
`GazVanDerWaals` to `van_der_waals` (`src/gas_models.py`). -/
def pression (g : Gaz) (V T : ℝ) : ℝ :=
  match g with
  | parfait n _ => isotherme V n T
  | vanDerWaals n _ a b => van_der_waals V n T a b

/-- `temperature(P, V)`: `GazParfait` returns `P*V/(n*R)`;
`GazVanDerWaals` returns `(P + a*n^2/V^2)*(V - n*b)/(n*R)`
(`src/gas_models.py`). -/
def temperature (g : Gaz) (P V : ℝ) : ℝ :=
  match g with
  | parfait n _ => (P * V) / (n * g.R)
  | vanDerWaals n _ a b => ((P + (a * n ^ 2) / V ^ 2) * (V - n * b)) / (n * g.R)

/-- `pression_adiabatique(V, P0, V0)`: the `ModeleGaz` default (used by
`GazParfait`) delegates to `adiabatique`; `GazVanDerWaals` overrides it:
recover `T0 = temperature(P0, V0)`, set
`T_new = T0 * ((V0 - n*b)/(V - n*b))**(gamma - 1)`, return
`pression(V, T_new)`.  (The covolume check `V <= n*b` in the source is an
explicit `pass`: no failure path exists, the value is returned anyway.) -/
def pression_adiabatique (g : Gaz) (V P0 V0 : ℝ) : ℝ :=
  match g with
  | parfait _ gamma => adiabatique V P0 V0 gamma
  | vanDerWaals n gamma _ b =>
      let T0 := g.temperature P0 V0
      let T_new := T0 * ((V0 - n * b) / (V - n * b)) ^ (gamma - 1)
      g.pression V T_new

/-- `ModeleGaz.variation_entropie(T, V, T_ref, V_ref)` from
`src/gas_models.py`: `Cv = n*R/(gamma-1)`, `b = getattr(self, b, 0)*n`,
`ΔS = Cv*log(T/T_ref) + n*R*log(V_eff/V_ref_eff)` where
`V_eff = max(1e-10, V-b)` and `V_ref_eff = max(1e-10, V_ref-b)`
(`np.maximum` clamp before the logarithm). -/
def variation_entropie (g : Gaz) (T V T_ref V_ref : ℝ) : ℝ :=
  let Cv := (g.n * g.R) / (g.gamma - 1)
  let b := g.covolume * g.n
  let term_T := Cv * Real.log (T / T_ref)
  let V_eff := max (1e-10) (V - b)
  let V_ref_eff := max (1e-10) (V_ref - b)
  let term_V := g.n * g.R * Real.log (V_eff / V_ref_eff)
  term_T + term_V

end Gaz

/-- `np.linspace(a, b, num)`: `num` uniformly spaced samples from `a` to
`b` inclusive, sample `i` at `a + (b - a)*i/(num - 1)`. -/
def linspace (a b : ℝ) (num : ℕ) : List ℝ :=
  (List.range num).map fun i => a + (b - a) * (i : ℝ) / ((num : ℝ) - 1)

/-- `scipy.integrate.simpson(ys, x=xs)` on a uniform grid of spacing `dx`:
composite Simpson rule over successive interval pairs; when the number of
intervals is odd, scipy integrates the first `len - 2` intervals with the
composite rule and adds the Cartwright-corrected last interval, which for
a uniform grid is `dx/12 * (5*y[-1] + 8*y[-2] - y[-3])`. -/
def simpson (ys : List ℝ) (dx : ℝ) : ℝ :=
  let n := ys.length
  if n < 2 then 0
  else if n = 2 then dx / 2 * (ys.getD 0 0 + ys.getD 1 0)
  else if n % 2 = 1 then
    dx / 3 * ∑ k ∈ Finset.range ((n - 1) / 2),
      (ys.getD (2 * k) 0 + 4 * ys.getD (2 * k + 1) 0 + ys.getD (2 * k + 2) 0)
  else
    dx / 3 * ∑ k ∈ Finset.range ((n - 2) / 2),
      (ys.getD (2 * k) 0 + 4 * ys.getD (2 * k + 1) 0 + ys.getD (2 * k + 2) 0)
    + dx / 12 * (5 * ys.getD (n - 1) 0 + 8 * ys.getD (n - 2) 0 - ys.getD (n - 3) 0)

/-- One entry of the `self.points` dict: a `(V, P, T)` tuple. -/
structure PointEtat where
  V : ℝ
  P : ℝ
  T : ℝ

/-- The `self.points` dict of a computed cycle, keys A..D. -/
structure PointsCycle where
  A : PointEtat
  B : PointEtat
  C : PointEtat
  D : PointEtat

/-- `CycleOtto.__init__(modele_gaz, V_min, V_max, T_A, P_A, T_C_max)` from
`src/cycles.py`.  The constructor performs no validation of its inputs:
it only stores them (plus `V_A = V_max`) and computes `tau`. -/
structure CycleOtto where
  gaz : Gaz
  V_min : ℝ
  V_max : ℝ
  T_A : ℝ
  P_A : ℝ
  T_C : ℝ

namespace CycleOtto

/-- `self.V_A = V_max` set in `__init__`. -/
def V_A (c : CycleOtto) : ℝ := c.V_max

/-- `self.tau = V_max / V_min` set in `__init__` (no τ > 1 check). -/
def tau (c : CycleOtto) : ℝ := c.V_max / c.V_min

/-- `CycleOtto.calculer_points_cycle` from `src/cycles.py`: corner A is the
ambient state at `V_max`; A→B adiabatic compression to `V_min`; B→C
isochoric heating to the imposed `T_C`; C→D adiabatic expansion back to
`V_max`. -/
def calculer_points_cycle (c : CycleOtto) : PointsCycle :=
  let V_A := c.V_max
  let P_A := c.P_A
  let T_A := c.T_A
  let V_B := c.V_min
  let P_B := c.gaz.pression_adiabatique V_B P_A V_A
  let T_B := c.gaz.temperature P_B V_B
  let V_C := V_B
  let T_C := c.T_C
  let P_C := c.gaz.pression V_C T_C
  let V_D := V_A
  let P_D := c.gaz.pression_adiabatique V_D P_C V_C
  let T_D := c.gaz.temperature P_D V_D
  ⟨⟨V_A, P_A, T_A⟩, ⟨V_B, P_B, T_B⟩, ⟨V_C, P_C, T_C⟩, ⟨V_D, P_D, T_D⟩⟩

end CycleOtto

/-- `CycleOtto.obtenir_courbe_adiabatique(point_depart, point_fin, 100)`:
`V_values = np.linspace(V_start, V_end, n_points)` and
`P_values = gaz.pression_adiabatique(V_values, P_start, V_start)`
(numpy broadcasting over the volume array modelled as `List.map`). -/
def obtenir_courbe_adiabatique (g : Gaz) (depart fin : PointEtat)
    (n_points : ℕ) : List ℝ × List ℝ :=
  let V_values := linspace depart.V fin.V n_points
  let P_values := V_values.map fun v => g.pression_adiabatique v depart.P depart.V
  (V_values, P_values)

/-- `-simpson(P_vals, x=V_vals)` for one adiabatic leg sampled with the
default `n_points = 100`: the work `W = -∫ P dV` along the leg.  The grid
`V_vals = linspace(V_start, V_end, 100)` is uniform with spacing
`(V_end - V_start)/99`. -/
def travail_adiabatique (g : Gaz) (depart fin : PointEtat) : ℝ :=
  -(simpson (obtenir_courbe_adiabatique g depart fin 100).2
      ((fin.V - depart.V) / 99))

/-- The dict returned by `calculer_rendement` (Otto and Diesel).  The
`eta_theorique` field is `Option ℝ`: `some x` models a numeric float,
`none` models `float(nan)` (the "not applicable" marker). -/
structure Rendement where
  W_total : ℝ
  Q_in : ℝ
  eta_numerique : ℝ
  eta_theorique : Option ℝ

/-- `eta_th = 1 - 1/(tau**(gamma - 1))` computed at line 90 of
`src/cycles.py` inside `CycleOtto.calculer_rendement`. -/
def eta_theorique_otto (tau gamma : ℝ) : ℝ := 1 - 1 / tau ^ (gamma - 1)

/-- `CycleOtto.calculer_rendement` from `src/cycles.py` (after
`calculer_points_cycle` has filled `self.points`): Simpson work on the two
adiabatic legs, `Q_in = n*Cv*(T_C - T_B)` with molar `Cv = R/(gamma-1)`,
`eta_numerique = |W_total|/Q_in`, and the ideal-gas theoretical
efficiency. -/
def CycleOtto.calculer_rendement (c : CycleOtto) : Rendement :=
  let pts := c.calculer_points_cycle
  let W_ab := travail_adiabatique c.gaz pts.A pts.B
  let W_cd := travail_adiabatique c.gaz pts.C pts.D
  let W_total := W_ab + W_cd
  let Cv := c.gaz.R / (c.gaz.gamma - 1)
  let Q_in := c.gaz.n * Cv * (pts.C.T - pts.B.T)
  let eta_simpson := |W_total| / Q_in
  ⟨W_total, Q_in, eta_simpson, some (eta_theorique_otto c.tau c.gaz.gamma)⟩

namespace CycleDiesel

/-- The residual `func_p(v) = gaz.pression(v, T_C) - P_C` handed to
`scipy.optimize.fsolve` in `CycleDiesel.calculer_points_cycle`. -/
def func_p (g : Gaz) (T_C P_C v : ℝ) : ℝ := g.pression v T_C - P_C

/-- The initial guess `V_C_guess = V_B * (T_C/T_B)` for the isobaric
combustion volume in `CycleDiesel.calculer_points_cycle`. -/
def V_C_guess (V_B T_C T_B : ℝ) : ℝ := V_B * (T_C / T_B)

/-- `CycleDiesel.calculer_rendement` from `src/cycles.py`, as a function
of the engine configuration and the `self.points` state written by
`calculer_points_cycle` (whose B→C corner comes from the numeric
`fsolve`): Simpson work on the adiabatic legs, closed-form isobaric work
`W_bc = -P_B*(V_C - V_B)`, `Q_in = n*Cp*(T_C - T_B)` with molar
`Cp = gamma*R/(gamma-1)`, and `eta_theorique = float(nan)`
(modelled as `none`). -/
def calculer_rendement (c : CycleOtto) (pts : PointsCycle) : Rendement :=
  let W_ab := travail_adiabatique c.gaz pts.A pts.B
  let W_bc := -pts.B.P * (pts.C.V - pts.B.V)
  let W_cd := travail_adiabatique c.gaz pts.C pts.D
  let W_total := W_ab + W_bc + W_cd
  let Cp := (c.gaz.gamma * c.gaz.R) / (c.gaz.gamma - 1)
  let Q_in := c.gaz.n * Cp * (pts.C.T - pts.B.T)
  let eta := |W_total| / Q_in
  ⟨W_total, Q_in, eta, none⟩

end CycleDiesel

/-! ## Theorems -/

/-- C1: the claim as stated is false on the code.  At the explicit input
`n = 1, gamma = 1.4, a = 0, b = 1, V = 1/2, T = 300` the required
evaluation point satisfies `V ≤ n·b` (`1/2 ≤ 1`), yet the Van der Waals
pressure evaluation does not fail as a PhysicalInfeasibility: it silently
returns the negative pressure `-4988.4`. -/
theorem vdw_covolume_counterexample :
    (Gaz.vanDerWaals 1 1.4 0 1).pression (1 / 2) 300 < 0 := by
  simp only [Gaz.pression, van_der_waals, CONST_R]
  norm_num

/-- C1 (amended): for every Van der Waals model and every evaluation point
with `0 < V < n·b` (and `T > 0`, `a ≥ 0`, `n > 0`), the pressure
evaluation does not fail: it silently returns a strictly negative pressure
value (the covolume check in `pression_adiabatique` is an explicit
`pass`). -/
theorem vdw_covolume_pression_negative (n gamma a b V T : ℝ)
    (hn : 0 < n) (hT : 0 < T) (ha : 0 ≤ a) (hV : 0 < V) (hVb : V < n * b) :
    (Gaz.vanDerWaals n gamma a b).pression V T < 0 := by
  simp only [Gaz.pression, van_der_waals]
  have hR : (0 : ℝ) < CONST_R := by norm_num [CONST_R]
  have h1 : (n * CONST_R * T) / (V - n * b) < 0 :=
    div_neg_of_pos_of_neg (by positivity) (by linarith)
  have h2 : 0 ≤ (a * n ^ 2) / V ^ 2 := by positivity
  linarith

/-- Witness for C1 (amended) at `n = 2, gamma = 1.4, a = 1, b = 1, V = 1,
T = 100`. -/
theorem vdw_covolume_pression_negative_witness :
    (Gaz.vanDerWaals 2 1.4 1 1).pression 1 100 < 0 :=
  vdw_covolume_pression_negative 2 1.4 1 1 1 100 (by norm_num) (by norm_num)
    (by norm_num) (by norm_num) (by norm_num)

/-- The Simpson quadrature vanishes on a grid of zero spacing: every
branch of `simpson` is scaled by `dx`. -/
theorem simpson_dx_nul (ys : List ℝ) : simpson ys 0 = 0 := by
  simp only [simpson]
  split_ifs <;> simp

/-- An adiabatic leg between two corners at the same volume contributes
zero Simpson work: the sampling grid `linspace(V, V, 100)` has spacing
`0`. -/
theorem travail_adiabatique_meme_volume (g : Gaz) (dep fin : PointEtat)
    (h : dep.V = fin.V) : travail_adiabatique g dep fin = 0 := by
  unfold travail_adiabatique
  rw [h, sub_self, zero_div, simpson_dx_nul, neg_zero]

/-- In a degenerate configuration with `V_min = V_max`, all four corners
sit at the same volume, so both adiabatic Simpson integrals — hence
`W_total` — are zero. -/
theorem otto_rendement_degenere (g : Gaz) (V T_A P_A T_C : ℝ) :
    (CycleOtto.mk g V V T_A P_A T_C).calculer_rendement.W_total = 0 := by
  show travail_adiabatique (CycleOtto.mk g V V T_A P_A T_C).gaz
      (CycleOtto.mk g V V T_A P_A T_C).calculer_points_cycle.A
      (CycleOtto.mk g V V T_A P_A T_C).calculer_points_cycle.B
    + travail_adiabatique (CycleOtto.mk g V V T_A P_A T_C).gaz
      (CycleOtto.mk g V V T_A P_A T_C).calculer_points_cycle.C
      (CycleOtto.mk g V V T_A P_A T_C).calculer_points_cycle.D = 0
  rw [travail_adiabatique_meme_volume (CycleOtto.mk g V V T_A P_A T_C).gaz
        (CycleOtto.mk g V V T_A P_A T_C).calculer_points_cycle.A
        (CycleOtto.mk g V V T_A P_A T_C).calculer_points_cycle.B rfl,
      travail_adiabatique_meme_volume (CycleOtto.mk g V V T_A P_A T_C).gaz
        (CycleOtto.mk g V V T_A P_A T_C).calculer_points_cycle.C
        (CycleOtto.mk g V V T_A P_A T_C).calculer_points_cycle.D rfl,
      add_zero]

/-- C2: the claim as stated is false on the code.  At the explicit
boundary configuration `V_min = V_max = 1` (`τ = 1`), with ideal gas
`n = 1, gamma = 1.4`, `T_A = 300`, `P_A = 100000`, `T_C = 2000`,
construction succeeds (no InvalidConfiguration rejection exists in
`CycleOtto.__init__`) and the engine silently produces a zero-work
cycle. -/
theorem otto_tau_un_contre_exemple :
    (CycleOtto.mk (Gaz.parfait 1 1.4) 1 1 300 100000 2000).tau = 1
    ∧ (CycleOtto.mk (Gaz.parfait 1 1.4) 1 1 300 100000 2000).calculer_rendement.W_total
        = 0 :=
  ⟨by norm_num [CycleOtto.tau],
   otto_rendement_degenere (Gaz.parfait 1 1.4) 1 300 100000 2000⟩

/-- C2 (amended): the code performs no configuration validation.  Every
boundary configuration with `V_min = V_max ≠ 0` (`τ = 1`) is accepted by
the constructor and the engine silently produces a zero-work cycle
(`W_total = 0`) instead of failing as InvalidConfiguration. -/
theorem otto_tau_un_accepte (g : Gaz) (V T_A P_A T_C : ℝ) (hV : V ≠ 0) :
    (CycleOtto.mk g V V T_A P_A T_C).tau = 1
    ∧ (CycleOtto.mk g V V T_A P_A T_C).calculer_rendement.W_total = 0 :=
  ⟨div_self hV, otto_rendement_degenere g V T_A P_A T_C⟩

/-- Witness for C2 (amended) at `V = 2`, ideal gas `n = 2`. -/
theorem otto_tau_un_accepte_witness :
    (CycleOtto.mk (Gaz.parfait 2 1.4) 2 2 250 100000 1500).tau = 1
    ∧ (CycleOtto.mk (Gaz.parfait 2 1.4) 2 2 250 100000 1500).calculer_rendement.W_total
        = 0 :=
  otto_tau_un_accepte (Gaz.parfait 2 1.4) 2 250 100000 1500 (by norm_num)

/-- C3: for every gas model and every Otto boundary configuration,
`calculer_points_cycle` writes corner A = (V_max, P_A, T_A); corner B at
V_min with `P_B = pression_adiabatique(V_min, P_A, V_A)` and
`T_B = temperature(P_B, V_min)`; corner C at V_min with the imposed target
temperature `T_C` and `P_C = pression(V_min, T_C)`; corner D at V_max with
`P_D = pression_adiabatique(V_max, P_C, V_C)` and
`T_D = temperature(P_D, V_max)`. -/
theorem otto_points_cycle_corners (g : Gaz) (V_min V_max T_A P_A T_C_max : ℝ) :
    (CycleOtto.mk g V_min V_max T_A P_A T_C_max).calculer_points_cycle =
      ⟨⟨V_max, P_A, T_A⟩,
       ⟨V_min, g.pression_adiabatique V_min P_A V_max,
        g.temperature (g.pression_adiabatique V_min P_A V_max) V_min⟩,
       ⟨V_min, g.pression V_min T_C_max, T_C_max⟩,
       ⟨V_max, g.pression_adiabatique V_max (g.pression V_min T_C_max) V_min,
        g.temperature
          (g.pression_adiabatique V_max (g.pression V_min T_C_max) V_min)
          V_max⟩⟩ :=
  rfl

/-- C4: for every Diesel configuration and computed cycle points,
`CycleDiesel.calculer_rendement` reports `W_total` as the two adiabatic
Simpson integrals plus the closed-form isobaric work
`-P_B·(V_C - V_B)`, the heat input `Q_in = n·Cp·(T_C - T_B)` with
`Cp = gamma·R/(gamma - 1)`, and the theoretical-efficiency field as the
NaN-equivalent `none`, never a numeric value. -/
theorem diesel_rendement_formules (c : CycleOtto) (pts : PointsCycle) :
    (CycleDiesel.calculer_rendement c pts).W_total =
      travail_adiabatique c.gaz pts.A pts.B
        + -pts.B.P * (pts.C.V - pts.B.V)
        + travail_adiabatique c.gaz pts.C pts.D
    ∧ (CycleDiesel.calculer_rendement c pts).Q_in =
        c.gaz.n * ((c.gaz.gamma * c.gaz.R) / (c.gaz.gamma - 1))
          * (pts.C.T - pts.B.T)
    ∧ (CycleDiesel.calculer_rendement c pts).eta_theorique = none :=
  ⟨rfl, rfl, rfl⟩

/-- C5: for both gas models and every physically valid state (`n > 0`,
`V > 0`, `T > 0`, and `V > n·b` for Van der Waals — `covolume` is `0` for
the ideal gas), `temperature (pression V T) V = T` exactly. -/
theorem temperature_pression_aller_retour (g : Gaz) (V T : ℝ)
    (hn : 0 < g.n) (hV : 0 < V) (hT : 0 < T)
    (hcov : g.n * g.covolume < V) :
    g.temperature (g.pression V T) V = T := by
  have h8 : (8.314 : ℝ) ≠ 0 := by norm_num
  cases g with
  | parfait n gamma =>
      simp only [Gaz.n] at hn
      simp only [Gaz.temperature, Gaz.pression, isotherme, Gaz.R, CONST_R]
      field_simp
  | vanDerWaals n gamma a b =>
      simp only [Gaz.n, Gaz.covolume] at hn hcov
      have hden : V - n * b ≠ 0 := by
        have : 0 < V - n * b := by linarith
        exact ne_of_gt this
      simp only [Gaz.temperature, Gaz.pression, van_der_waals, Gaz.R, CONST_R]
      field_simp
      ring

/-- C6: the Van der Waals model instantiated with `a = 0, b = 0` coincides
with the ideal-gas model of the same `n` and `gamma`: `pression`,
`temperature` and `pression_adiabatique` agree on every valid input
(`n > 0`, `V > 0`, `V0 > 0`). -/
theorem vdw_degenere_en_gaz_parfait (n gamma V T P P0 V0 : ℝ)
    (hn : 0 < n) (hV : 0 < V) (hV0 : 0 < V0) :
    (Gaz.vanDerWaals n gamma 0 0).pression V T
        = (Gaz.parfait n gamma).pression V T
    ∧ (Gaz.vanDerWaals n gamma 0 0).temperature P V
        = (Gaz.parfait n gamma).temperature P V
    ∧ (Gaz.vanDerWaals n gamma 0 0).pression_adiabatique V P0 V0
        = (Gaz.parfait n gamma).pression_adiabatique V P0 V0 := by
  have h8 : (8.314 : ℝ) ≠ 0 := by norm_num
  refine ⟨?_, ?_, ?_⟩
  · simp [Gaz.pression, van_der_waals, isotherme]
  · simp [Gaz.temperature, Gaz.R]
  · have hx : (0 : ℝ) < V0 / V := div_pos hV0 hV
    have hrw : (V0 / V) ^ gamma = (V0 / V) ^ (gamma - 1) * (V0 / V) := by
      rw [← Real.rpow_add_one (ne_of_gt hx) (gamma - 1)]
      congr 1
      ring
    simp only [Gaz.pression_adiabatique, Gaz.temperature, Gaz.pression,
      van_der_waals, adiabatique, Gaz.R, CONST_R, mul_zero, zero_mul,
      sub_zero, zero_div, add_zero, zero_pow, zero_add]
    rw [hrw]
    field_simp
    ring

/-- Witness for C6 at `n = 1, gamma = 1.4, V = 2, T = 300, P = 5, P0 = 7,
V0 = 3`. -/
theorem vdw_degenere_en_gaz_parfait_witness :
    (Gaz.vanDerWaals 1 1.4 0 0).pression 2 300
        = (Gaz.parfait 1 1.4).pression 2 300
    ∧ (Gaz.vanDerWaals 1 1.4 0 0).temperature 5 2
        = (Gaz.parfait 1 1.4).temperature 5 2
    ∧ (Gaz.vanDerWaals 1 1.4 0 0).pression_adiabatique 2 7 3
        = (Gaz.parfait 1 1.4).pression_adiabatique 2 7 3 :=
  vdw_degenere_en_gaz_parfait 1 1.4 2 300 5 7 3 (by norm_num) (by norm_num)
    (by norm_num)

/-- The entropy-difference formula as worded in §4.1 of the spec:
`ΔS = n·Cv·ln(T/T_ref) + n·R·ln((V−b_eff)/(V_ref−b_eff))` with
`Cv = nR/(γ−1)` and `b_eff = n·b`, both clamped to the floor `1e-10`
before the logarithm. -/
def variation_entropie_spec (n gamma b T V T_ref V_ref : ℝ) : ℝ :=
  let Cv := n * CONST_R / (gamma - 1)
  n * Cv * Real.log (T / T_ref)
    + n * CONST_R *
      Real.log (max (1e-10) (V - n * b) / max (1e-10) (V_ref - n * b))

/-- C7: the claim as stated is false on the code.  With `Cv = nR/(γ−1)`
as the claim defines it, the claimed T-term `n·Cv·ln(T/T_ref)` carries a
factor `n²R/(γ−1)`, while the code computes `Cv·ln(T/T_ref)` with total
`Cv = nR/(γ−1)`.  At `n = 2, gamma = 1.4, b = 0, T = 2, V = 1,
T_ref = 1, V_ref = 1` the two disagree. -/
theorem variation_entropie_contre_exemple :
    (Gaz.parfait 2 1.4).variation_entropie 2 1 1 1 ≠
      variation_entropie_spec 2 1.4 0 2 1 1 1 := by
  have hlog : 0 < Real.log 2 := Real.log_pos (by norm_num)
  have hmax : max (1e-10 : ℝ) 1 = 1 := by norm_num
  simp only [Gaz.variation_entropie, variation_entropie_spec, Gaz.n,
    Gaz.gamma, Gaz.R, Gaz.covolume, CONST_R]
  norm_num [hmax]

/-- C7 (amended): for every gas model, `variation_entropie` returns
`ΔS = n·Cv·ln(T/T_ref) + n·R·ln((V−b_eff)/(V_ref−b_eff))` with *molar*
`Cv = R/(γ−1)` (the value `Cv = nR/(γ−1)` given by the claim is the total heat capacity,
which already contains the factor `n`) and `b_eff = n·b` (`0` for the
ideal gas), where both `(V−b_eff)` and `(V_ref−b_eff)` are clamped to the
positive floor `1e-10` before the logarithm. -/
theorem variation_entropie_formule (g : Gaz) (T V T_ref V_ref : ℝ) :
    g.variation_entropie T V T_ref V_ref =
      g.n * (g.R / (g.gamma - 1)) * Real.log (T / T_ref)
        + g.n * g.R *
          Real.log (max (1e-10) (V - g.n * g.covolume) /
            max (1e-10) (V_ref - g.n * g.covolume)) := by
  simp only [Gaz.variation_entropie, mul_comm g.covolume g.n]
  ring

/-- C8: for the ideal gas, the Diesel isobaric-combustion initial guess
`V_C_guess = V_B·(T_C/T_B)` is an exact root of the residual
`pression(V, T_C) - P_B` handed to the solver when
`T_B = temperature(P_B, V_B)`, and every positive root of that residual
equals the closed form `V_B·(T_C/T_B)` — so the solved `V_C` is the
closed-form value. -/
theorem diesel_vc_gaz_parfait_exact (n gamma V_B P_B T_C T_B : ℝ)
    (hn : 0 < n) (hVB : 0 < V_B) (hPB : 0 < P_B) (hTC : 0 < T_C)
    (hTB : T_B = (Gaz.parfait n gamma).temperature P_B V_B) :
    CycleDiesel.func_p (Gaz.parfait n gamma) T_C P_B
        (CycleDiesel.V_C_guess V_B T_C T_B) = 0
    ∧ ∀ V : ℝ, 0 < V →
        CycleDiesel.func_p (Gaz.parfait n gamma) T_C P_B V = 0 →
        V = V_B * (T_C / T_B) := by
  have h8 : (8.314 : ℝ) ≠ 0 := by norm_num
  subst hTB
  simp only [CycleDiesel.func_p, CycleDiesel.V_C_guess, Gaz.pression,
    Gaz.temperature, isotherme, Gaz.R, CONST_R]
  constructor
  · field_simp
    ring
  · intro V hVpos hroot
    rw [sub_eq_zero] at hroot
    field_simp at hroot ⊢
    nlinarith [hroot]

/-- Witness for C8 at `n = 1, gamma = 1.4, V_B = 1, P_B = 2494.2,
T_C = 2000, T_B = 300` (indeed `2494.2·1/(1·8.314) = 300`). -/
theorem diesel_vc_gaz_parfait_exact_witness :
    CycleDiesel.func_p (Gaz.parfait 1 1.4) 2000 2494.2
        (CycleDiesel.V_C_guess 1 2000 300) = 0
    ∧ ∀ V : ℝ, 0 < V →
        CycleDiesel.func_p (Gaz.parfait 1 1.4) 2000 2494.2 V = 0 →
        V = 1 * (2000 / 300) :=
  diesel_vc_gaz_parfait_exact 1 1.4 1 2494.2 2000 300 (by norm_num)
    (by norm_num) (by norm_num) (by norm_num)
    (by norm_num [Gaz.temperature, Gaz.R])

/-- C9: the ideal-gas Otto theoretical efficiency
`eta_th = 1 - 1/(tau**(gamma-1))` computed by `calculer_rendement` is
strictly increasing in the compression ratio: for `gamma > 1` and
`1 < τ₁ < τ₂`, `eta_th(τ₁) < eta_th(τ₂)`. -/
theorem eta_theorique_otto_croissante (gamma t1 t2 : ℝ)
    (hg : 1 < gamma) (h1 : 1 < t1) (h12 : t1 < t2) :
    eta_theorique_otto t1 gamma < eta_theorique_otto t2 gamma := by
  have h1p : (0 : ℝ) < t1 := lt_trans one_pos h1
  have hz : (0 : ℝ) < gamma - 1 := by linarith
  have hp1 : 0 < t1 ^ (gamma - 1) := Real.rpow_pos_of_pos h1p _
  have hlt : t1 ^ (gamma - 1) < t2 ^ (gamma - 1) :=
    Real.rpow_lt_rpow (le_of_lt h1p) h12 hz
  have hdiv : 1 / t2 ^ (gamma - 1) < 1 / t1 ^ (gamma - 1) :=
    one_div_lt_one_div_of_lt hp1 hlt
  unfold eta_theorique_otto
  linarith

/-- Witness for C9 at `gamma = 1.4`, `τ₁ = 2`, `τ₂ = 4`. -/
theorem eta_theorique_otto_croissante_witness :
    eta_theorique_otto 2 1.4 < eta_theorique_otto 4 1.4 :=
  eta_theorique_otto_croissante 1.4 2 4 (by norm_num) (by norm_num)
    (by norm_num)

/-- C10: for both gas models, the adiabatic-pressure function is anchored
at its reference state: at every valid reference (`n > 0`, `V0 > 0`,
`V0 > n·b` for Van der Waals), `pression_adiabatique V0 P0 V0 = P0`. -/
theorem pression_adiabatique_ancree (g : Gaz) (V0 P0 : ℝ)
    (hn : 0 < g.n) (hV0 : 0 < V0) (hcov : g.n * g.covolume < V0) :
    g.pression_adiabatique V0 P0 V0 = P0 := by
  have h8 : (8.314 : ℝ) ≠ 0 := by norm_num
  cases g with
  | parfait n gamma =>
      simp only [Gaz.pression_adiabatique, adiabatique]
      rw [div_self (ne_of_gt hV0), Real.one_rpow, mul_one]
  | vanDerWaals n gamma a b =>
      simp only [Gaz.n, Gaz.covolume] at hn hcov
      have hden : V0 - n * b ≠ 0 := by
        have : 0 < V0 - n * b := by linarith
        exact ne_of_gt this
      simp only [Gaz.pression_adiabatique, Gaz.temperature, Gaz.pression,
        van_der_waals, Gaz.R, CONST_R]
      rw [div_self hden, Real.one_rpow, mul_one]
      field_simp
      ring

/-- Witness for C10: both gas models at `V0 = 2, P0 = 5`. -/
theorem pression_adiabatique_ancree_witness :
    (Gaz.parfait 1 1.4).pression_adiabatique 2 5 2 = 5
    ∧ (Gaz.vanDerWaals 1 1.4 1 1).pression_adiabatique 2 5 2 = 5 :=
  ⟨pression_adiabatique_ancree (Gaz.parfait 1 1.4) 2 5
      (by norm_num [Gaz.n]) (by norm_num) (by norm_num [Gaz.n, Gaz.covolume]),
   pression_adiabatique_ancree (Gaz.vanDerWaals 1 1.4 1 1) 2 5
      (by norm_num [Gaz.n]) (by norm_num) (by norm_num [Gaz.n, Gaz.covolume])⟩

/-- Witness for C5: both gas models at `V = 2`, `T = 300`. -/
theorem temperature_pression_aller_retour_witness :
    (Gaz.parfait 1 1.4).temperature ((Gaz.parfait 1 1.4).pression 2 300) 2 = 300
    ∧ (Gaz.vanDerWaals 1 1.4 1 1).temperature
        ((Gaz.vanDerWaals 1 1.4 1 1).pression 2 300) 2 = 300 :=
  ⟨temperature_pression_aller_retour (Gaz.parfait 1 1.4) 2 300
      (by norm_num [Gaz.n]) (by norm_num) (by norm_num)
      (by norm_num [Gaz.n, Gaz.covolume]),
   temperature_pression_aller_retour (Gaz.vanDerWaals 1 1.4 1 1) 2 300
      (by norm_num [Gaz.n]) (by norm_num) (by norm_num)
      (by norm_num [Gaz.n, Gaz.covolume])⟩
